import Mathlib

/-!
A shallow embedding of the "manage my studies" hierarchical entity store:
the default semester naming policy (src/domain/config.rs), the path layer
(src/domain/paths.rs), the domain entities (src/domain/semester.rs,
src/domain/course.rs), the store (src/domain/store.rs), the reference
resolver / context switcher (src/service/switch.rs), and the superseded
iteration's course move operation (src/semester.rs).

Filesystem state is modelled explicitly: the entry point's child
directories, their course subdirectories, and the parsed contents of the
sidecar files, together with a readability flag per sidecar file (a `false`
flag models a file that exists but cannot be read or parsed). Fallible Rust
operations returning `Result`/`Option` are modelled with `Option`.
-/

namespace MM

/-- Study cycles (src/domain/semester.rs, enum StudyCycle). -/
inductive StudyCycle where
  | bachelor
  | master
  | doctorate
deriving DecidableEq, Repr

/-- StudyCycle::abbreviation (src/domain/semester.rs). -/
def StudyCycle.abbreviation : StudyCycle → String
  | .bachelor => "b"
  | .master => "m"
  | .doctorate => "d"

/-- The Display impl for StudyCycle (src/domain/semester.rs). -/
def StudyCycle.display : StudyCycle → String
  | .bachelor => "Bachelor"
  | .master => "Master"
  | .doctorate => "Doctorate"

/-! ## Default naming policy (src/domain/config.rs, SemesterNames)

The default regex is `^(?P<study_cycle>[bmd])(?P<semester_number>\d{2})`
(note: no end anchor in the code), with the default study-cycle mapping
b/m/d. A string matches iff it starts with one of the cycle characters
followed by two digits; any trailing characters are ignored. -/

/-- Default study-cycle mapping lookup: the character class `[bmd]` of the
default pattern combined with the default mapping table. -/
def cycleOfChar : Char → Option StudyCycle
  | 'b' => some .bachelor
  | 'm' => some .master
  | 'd' => some .doctorate
  | _ => none

/-- SemesterNames::is_name with the default pattern: the regex
`^[bmd]\d\d` (unanchored at the end) matches somewhere in the string. -/
def defaultIsName (s : String) : Bool :=
  match s.data with
  | c :: d₁ :: d₂ :: _ => (cycleOfChar c).isSome && d₁.isDigit && d₂.isDigit
  | _ => false

/-- Numeric value of an ASCII digit character. -/
def digitVal (c : Char) : Nat := c.toNat - '0'.toNat

/-- SemesterNames::deserialize with the default pattern and mapping:
capture the cycle character and the two digit characters, parse the digits
as the semester number, and map the cycle character. Returns
(semester_number, study_cycle) as in the source. -/
def deserializeName (s : String) : Option (Nat × StudyCycle) :=
  match s.data with
  | c :: d₁ :: d₂ :: _ =>
    if d₁.isDigit && d₂.isDigit then
      (cycleOfChar c).map fun cy => (10 * digitVal d₁ + digitVal d₂, cy)
    else none
  | _ => none

/-- Zero padding to a minimum width of two digits, Rust's `{:02}`. -/
def pad2 (n : Nat) : String :=
  if n < 10 then "0" ++ Nat.repr n else Nat.repr n

/-- Semester::name (src/domain/semester.rs): canonical display name,
`format!("{}{:02}", cycle.abbreviation(), number)`. -/
def formatName (cy : StudyCycle) (n : Nat) : String :=
  cy.abbreviation ++ pad2 n

/-! ## Filesystem model -/

/-- A course directory together with the parsed content of its sidecar
`course.toml`: the optional `name` override, and whether the sidecar can be
read and parsed at all. Other sidecar fields (grade, ects, …) play no role
in the claims under consideration. -/
structure CourseDir where
  dirName : String
  nameOverride : Option String
  sidecarOk : Bool
deriving DecidableEq, Repr

/-- A child directory of the entry point together with its course
subdirectories and the parsed content of its `.mm` sidecar
(`active_course`), plus a readability flag for that sidecar. -/
structure SemesterDir where
  dirName : String
  courses : List CourseDir
  sidecarOk : Bool
  activeCourse : Option String
deriving DecidableEq, Repr

/-- The entry point's state: its child directories, and the root `.mm`
sidecar (`active_semester`) with its readability flag. -/
structure FileSystem where
  children : List SemesterDir
  rootSidecarOk : Bool
  rootActiveSemester : Option String
deriving DecidableEq, Repr

/-- Path existence lookup for an immediate child of the entry point
(EntryPoint::semester_path's `path.exists() && path.is_dir()` check). -/
def FileSystem.dir? (fs : FileSystem) (name : String) : Option SemesterDir :=
  fs.children.find? fun d => d.dirName == name

/-- SemesterPath::course_path: the named child exists and is a directory. -/
def SemesterDir.courseDir? (d : SemesterDir) (name : String) : Option CourseDir :=
  d.courses.find? fun c => c.dirName == name

/-! ## Entities -/

/-- The domain Course entity (src/domain/course.rs), restricted to the
fields the claims touch. -/
structure Course where
  dirName : String
  nameOverride : Option String
deriving DecidableEq, Repr

/-- Course::from_path: read the sidecar (fails if unreadable/unparseable)
and build the entity. -/
def Course.fromPath (cd : CourseDir) : Option Course :=
  if cd.sidecarOk then some { dirName := cd.dirName, nameOverride := cd.nameOverride } else none

/-- Course::name: the `name` override if set, otherwise the bracketed
directory name. -/
def Course.name (c : Course) : String :=
  c.nameOverride.getD ("[" ++ c.dirName ++ "]")

/-- The domain Semester entity (src/domain/semester.rs). `pathName` is the
name component of the SemesterPath; `activeCourse` is the persisted active
course resolved against disk at load time. -/
structure Semester where
  number : Nat
  cycle : StudyCycle
  pathName : String
  activeCourse : Option String
deriving DecidableEq, Repr

/-- Semester::from_path: read the semester sidecar (fails if
unreadable/unparseable), resolve the persisted active course only if that
child directory still exists, and parse the directory name with the naming
policy (fails if the name is not policy-valid). -/
def Semester.fromPath (d : SemesterDir) : Option Semester :=
  if d.sidecarOk then
    (deserializeName d.dirName).map fun nc =>
      { number := nc.1, cycle := nc.2, pathName := d.dirName,
        activeCourse := d.activeCourse.bind fun cn =>
          if (d.courseDir? cn).isSome then some cn else none }
  else none

/-- Semester::name: canonical display name from the parsed fields. -/
def Semester.name (s : Semester) : String := formatName s.cycle s.number

/-- Semester::course: look the name up as a course directory on disk, then
load it (None on a missing directory or unreadable course sidecar). -/
def Semester.course (s : Semester) (fs : FileSystem) (name : String) : Option Course :=
  (fs.dir? s.pathName).bind fun d => (d.courseDir? name).bind Course.fromPath

/-- Semester::active_course: load the resolved active course from disk. -/
def Semester.activeCourseGet (s : Semester) (fs : FileSystem) : Option Course :=
  s.activeCourse.bind fun cn =>
    (fs.dir? s.pathName).bind fun d => (d.courseDir? cn).bind Course.fromPath

/-! ## Store (src/domain/store.rs) -/

/-- The Store: the filesystem it owns plus the in-memory active-semester
pointer (the name component of the retained SemesterPath). -/
structure Store where
  fs : FileSystem
  activeSemester : Option String
deriving DecidableEq, Repr

/-- Store::new: read the root sidecar (fails if unreadable), then resolve
the persisted active-semester name through EntryPoint::semester_path
(policy check plus directory existence); an unresolvable name is dropped
silently. -/
def Store.new (fs : FileSystem) : Option Store :=
  if fs.rootSidecarOk then
    some { fs
           activeSemester := fs.rootActiveSemester.bind fun n =>
             if defaultIsName n && (fs.dir? n).isSome then some n else none }
  else none

/-- EntryPoint::semester_paths filtered through Semester::from_path
(Store::semesters). -/
def Store.semesters (st : Store) : List Semester :=
  (st.fs.children.filter fun d => defaultIsName d.dirName).filterMap Semester.fromPath

/-- Store::courses: all course directories of all policy-valid semester
directories, loaded through Course::from_path (unreadable course sidecars
are silently skipped; the semester sidecar is not consulted here). -/
def Store.courses (st : Store) : List Course :=
  ((st.fs.children.filter fun d => defaultIsName d.dirName).map
    fun d => d.courses.filterMap Course.fromPath).flatten

/-- Store::get_semester: EntryPoint::semester_path then
Semester::from_path. -/
def Store.getSemester (st : Store) (name : String) : Option Semester :=
  if defaultIsName name && (st.fs.dir? name).isSome then
    (st.fs.dir? name).bind Semester.fromPath
  else none

/-- Store::current_semester: re-load the retained active SemesterPath. -/
def Store.currentSemester (st : Store) : Option Semester :=
  st.activeSemester.bind fun n => (st.fs.dir? n).bind Semester.fromPath

/-- Store::current_course: delegate to the active semester's own
active-course pointer. -/
def Store.currentCourse (st : Store) : Option Course :=
  st.currentSemester.bind fun s => s.activeCourseGet st.fs

/-- Store::set_current_semester: update the in-memory pointer and persist
the name to the root sidecar. (Symlink mirror side effects are outside this
state.) -/
def Store.setCurrentSemester (st : Store) (sem : Option Semester) : Store :=
  { fs := { st.fs with rootActiveSemester := sem.map Semester.pathName }
    activeSemester := sem.map Semester.pathName }

/-- The effect of rewriting one semester's sidecar on a directory entry. -/
def sidecarUpdate (semName : String) (ac : Option String) (d : SemesterDir) : SemesterDir :=
  if d.dirName == semName then { d with activeCourse := ac, sidecarOk := true } else d

/-- Semester::set_active as seen on disk: rewrite the semester's sidecar
with the new active-course name (a successful write leaves a readable
sidecar behind). -/
def FileSystem.writeSemesterSidecar (fs : FileSystem) (semName : String)
    (ac : Option String) : FileSystem :=
  { fs with children := fs.children.map (sidecarUpdate semName ac) }

/-- Store::set_current_course: Semester::set_active on the given semester
(updating its in-memory pointer and its sidecar on disk). Returns the
updated store state and the updated in-memory semester. -/
def Store.setCurrentCourse (st : Store) (sem : Semester) (course : Option Course) :
    Store × Semester :=
  ({ st with fs := st.fs.writeSemesterSidecar sem.pathName (course.map Course.dirName) },
   { sem with activeCourse := course.map Course.dirName })

/-! ## Path creation (src/domain/paths.rs) -/

/-- EntryPoint::create_semester_path: the directory name is built with
`format!("{}{}", study_cycle, semester_number)` — the Display form of the
cycle and the unpadded number. Fails (with AlreadyExists) when a path of
that name already exists, mutating nothing; otherwise creates the empty
directory. Returns the updated filesystem and the created name. -/
def createSemesterPath (fs : FileSystem) (number : Nat) (cy : StudyCycle) :
    Option (FileSystem × String) :=
  let dname := cy.display ++ Nat.repr number
  if (fs.dir? dname).isSome then none
  else some ({ fs with children := fs.children ++
      [{ dirName := dname, courses := [], sidecarOk := true, activeCourse := none }] },
    dname)

/-! ## Symlink mirror construction (src/domain/paths.rs, MaybeSymLinkable) -/

/-- The on-disk state of a configured symlink location. `Path::exists`
traverses symlinks, so a dangling symlink reports as non-existing. -/
inductive PathState where
  | absent
  | liveSymlink
  | danglingSymlink
  | nonSymlink
deriving DecidableEq, Repr

/-- Path::exists for the modelled states. -/
def PathState.existsOnDisk : PathState → Bool
  | .liveSymlink => true
  | .nonSymlink => true
  | _ => false

/-- Path::is_symlink for the modelled states. -/
def PathState.isSymlink : PathState → Bool
  | .liveSymlink => true
  | .danglingSymlink => true
  | _ => false

/-- MaybeSymLinkable::new: with no configured path, construct the inert
mirror; with a configured path, succeed only when
`p.exists() && p.is_symlink()`, otherwise fail with the NotASymlink
error. -/
def maybeSymLinkableNew : Option PathState → Option (Option PathState)
  | none => some none
  | some p => if p.existsOnDisk && p.isSymlink then some (some p) else none

/-! ## Reference resolver / context switcher (src/service/switch.rs) -/

/-- The user-visible outcome of a switch invocation: the success messages
printed by FormatService::success, or a bailed error. -/
inductive SwitchOutcome where
  | semesterSwitch (sem : String)
  | courseSwitch (sem course : String)
  | failure (msg : String)
deriving DecidableEq, Repr

/-- The any-semester fallthrough of the one-segment reference switch: scan
all courses for one whose (display) name equals the reference, then scan
all semesters for one containing a course directory of that display name;
activate semester then course. -/
def referenceSwitchFallthrough (st : Store) (r : String) : Store × SwitchOutcome :=
  match st.courses.find? fun c => c.name == r with
  | some c =>
    match st.semesters.find? fun s => (s.course st.fs c.name).isSome with
    | some sem =>
      let st1 := st.setCurrentSemester (some sem)
      let st2 := (st1.setCurrentCourse sem (some c)).1
      (st2, .courseSwitch sem.name c.name)
    | none => (st, .failure "No semester found for course")
  | none => (st, .failure "No course found by reference")

/-- Rust's str::split('/') on the character list: every occurrence of the
separator starts a new (possibly empty) segment; the empty string yields
one empty segment. -/
def splitSlashAux : List Char → List (List Char)
  | [] => [[]]
  | ch :: rest =>
    let r := splitSlashAux rest
    if ch = '/' then [] :: r
    else
      match r with
      | [] => [[ch]]
      | h :: t => (ch :: h) :: t

/-- The reference string split on '/'. -/
def splitSlash (s : String) : List String :=
  (splitSlashAux s.data).map List.asString

/-- SwitchService::reference_switch: split the reference on a slash; one
segment is tried as a semester name, then as a course in the active
semester, then as a course anywhere; two segments are semester, then
course within it; anything else is invalid. -/
def referenceSwitch (st : Store) (ref : String) : Store × SwitchOutcome :=
  match splitSlash ref with
  | [] => (st, .failure "Invalid reference")
  | [r] =>
    match st.getSemester r with
    | some sem => (st.setCurrentSemester (some sem), .semesterSwitch sem.name)
    | none =>
      match st.currentSemester.bind fun act => (act.course st.fs r).map fun c => (act, c) with
      | some (act, c) =>
        let st1 := (st.setCurrentCourse act (some c)).1
        (st1, .courseSwitch act.name c.name)
      | none => referenceSwitchFallthrough st r
  | [s, c] =>
    match st.getSemester s with
    | none => (st, .failure "No semester found matching the reference semester part")
    | some sem =>
      match sem.course st.fs c with
      | none => (st, .failure "No Course found matching the reference course part")
      | some course =>
        let st1 := st.setCurrentSemester (some sem)
        let st2 := (st1.setCurrentCourse sem (some course)).1
        (st2, .courseSwitch sem.name course.name)
  | _ => (st, .failure "Please provide a valid reference")

/-- The canonicalized working directory relative to the entry point:
equal to it, strictly below it (with the path segments from the entry
point down), or not under it at all. -/
inductive WorkDir where
  | atEntry
  | below (segs : List String)
  | outside
deriving DecidableEq, Repr

/-- The user-visible outcome of a context switch. The out-of-scope case
reports its error through FormatService::error. -/
inductive CtxOutcome where
  | cleared
  | semesterOnly (sem : String)
  | semesterAndCourse (sem course : String)
  | outOfScope
  | failure (msg : String)
deriving DecidableEq, Repr

/-- SwitchService::context_switch: at the entry point clear the active
semester; outside the entry point report the out-of-scope error and change
nothing; one level below activate the child as a semester; two or more
levels below activate the depth-1 ancestor as the semester and the depth-2
ancestor as the course within it (a failed course lookup leaves the
already-performed semester switch in place). -/
def contextSwitch (st : Store) (wd : WorkDir) : Store × CtxOutcome :=
  match wd with
  | .atEntry => (st.setCurrentSemester none, .cleared)
  | .outside => (st, .outOfScope)
  | .below [] => (st, .failure "unreachable: empty descent")
  | .below [n] =>
    match st.getSemester n with
    | some sem => (st.setCurrentSemester (some sem), .semesterOnly sem.name)
    | none => (st, .failure "Current directory is not a subdirectory of a semester")
  | .below (s₀ :: s₁ :: _) =>
    match st.getSemester s₀ with
    | none => (st, .failure "Current directory is not a subdirectory of a semester")
    | some sem =>
      let st1 := st.setCurrentSemester (some sem)
      match sem.course st1.fs s₁ with
      | none => (st1, .failure "Current directory is not a subdirectory of a course")
      | some c =>
        let st2 := (st1.setCurrentCourse sem (some c)).1
        (st2, .semesterAndCourse sem.name c.name)

/-! ## Superseded iteration (src/semester.rs): in-memory Semester with
course move. Courses in this iteration are identified by directory name;
Course::new succeeds exactly when the course directory exists. -/

/-- The superseded iteration's in-memory Semester: its course directories
and the in-memory `active_course` field. -/
structure OldSemester where
  name : String
  courseDirs : List String
  activeCourse : Option String
deriving DecidableEq, Repr

/-- Semester::is_active (old iteration): `path.join(active) == course.path`
reduces to name equality for courses of this semester. -/
def OldSemester.isActive (s : OldSemester) (courseName : String) : Bool :=
  match s.activeCourse with
  | some a => a == courseName
  | none => false

/-- Semester::get_course (old iteration): the directory must exist. -/
def OldSemester.getCourse (s : OldSemester) (name : String) : Option String :=
  if s.courseDirs.contains name then some name else none

/-- Semester::active (old iteration): resolve the in-memory pointer;
Course::new fails when the directory no longer exists. -/
def OldSemester.active (s : OldSemester) : Option String :=
  s.activeCourse.bind fun a => if s.courseDirs.contains a then some a else none

/-- Semester::move_course (old iteration): fail with AlreadyExists if the
destination exists; rename the directory (fails if the source is missing);
if the moved course was the active one, rewrite the in-memory active
pointer to the new name. Returns the updated semester and the new course's
name. -/
def OldSemester.moveCourse (s : OldSemester) (fromName toName : String) :
    Option (OldSemester × String) :=
  if s.courseDirs.contains toName then none
  else if s.courseDirs.contains fromName then
    some ({ s with
            courseDirs := s.courseDirs.map fun d => if d == fromName then toName else d
            activeCourse := if s.isActive fromName then some toName else s.activeCourse },
      toName)
  else none

/-! ## Concrete filesystem states used to instantiate the theorems -/

/-- Semesters b01 (no courses) and m01 containing course directory x whose
sidecar has no name override; b01 is active. -/
def c1Fs : FileSystem :=
  { children := [{ dirName := "b01", courses := [], sidecarOk := true, activeCourse := none },
                 { dirName := "m01",
                   courses := [{ dirName := "x", nameOverride := none, sidecarOk := true }],
                   sidecarOk := true, activeCourse := none }]
    rootSidecarOk := true, rootActiveSemester := some "b01" }

/-- The store loaded from c1Fs: b01 active. -/
def c1Store : Store := { fs := c1Fs, activeSemester := some "b01" }

/-- As c1Fs, but course x carries the sidecar name override "x". -/
def c1wFs : FileSystem :=
  { children := [{ dirName := "b01", courses := [], sidecarOk := true, activeCourse := none },
                 { dirName := "m01",
                   courses := [{ dirName := "x", nameOverride := some "x", sidecarOk := true }],
                   sidecarOk := true, activeCourse := none }]
    rootSidecarOk := true, rootActiveSemester := some "b01" }

/-- The store loaded from c1wFs: b01 active. -/
def c1wStore : Store := { fs := c1wFs, activeSemester := some "b01" }

/-- Semester b01 with no course named algebra. -/
def c2Store : Store :=
  { fs := { children := [{ dirName := "b01", courses := [], sidecarOk := true,
                           activeCourse := none }]
            rootSidecarOk := true, rootActiveSemester := none }
    activeSemester := none }

/-- Semesters b01 (active, no courses) and m01 whose sidecar persists
active course c, with course directory c present. -/
def c3Fs : FileSystem :=
  { children := [{ dirName := "b01", courses := [], sidecarOk := true, activeCourse := none },
                 { dirName := "m01",
                   courses := [{ dirName := "c", nameOverride := none, sidecarOk := true }],
                   sidecarOk := true, activeCourse := some "c" }]
    rootSidecarOk := true, rootActiveSemester := some "b01" }

/-- The store loaded from c3Fs: b01 active. -/
def c3Store : Store := { fs := c3Fs, activeSemester := some "b01" }

/-- The m01 semester entity as loaded from c3Fs. -/
def c3SemM01 : Semester :=
  { number := 1, cycle := StudyCycle.master, pathName := "m01", activeCourse := some "c" }

/-- Entry point /studies with semesters b01 (containing course algebra)
and m01 whose sidecar persists active course c (directory present);
nothing active. -/
def c4Fs : FileSystem :=
  { children := [{ dirName := "b01",
                   courses := [{ dirName := "algebra", nameOverride := none, sidecarOk := true }],
                   sidecarOk := true, activeCourse := none },
                 { dirName := "m01",
                   courses := [{ dirName := "c", nameOverride := none, sidecarOk := true }],
                   sidecarOk := true, activeCourse := some "c" }]
    rootSidecarOk := true, rootActiveSemester := none }

/-- The store loaded from c4Fs. -/
def c4Store : Store := { fs := c4Fs, activeSemester := none }

/-- An empty entry point. -/
def emptyFs : FileSystem := { children := [], rootSidecarOk := true, rootActiveSemester := none }

/-- A root sidecar naming semester b07, which does not exist on disk. -/
def c7Fs : FileSystem := { children := [], rootSidecarOk := true, rootActiveSemester := some "b07" }

/-- Semester directory b01 whose own sidecar cannot be parsed. -/
def c10Fs : FileSystem :=
  { children := [{ dirName := "b01", courses := [], sidecarOk := false, activeCourse := none }]
    rootSidecarOk := true, rootActiveSemester := none }

/-- The store loaded from c10Fs. -/
def c10Store : Store := { fs := c10Fs, activeSemester := none }

/-- A superseded-iteration semester with courses old and other, old being
active. -/
def c9Sem : OldSemester :=
  { name := "b01", courseDirs := ["old", "other"], activeCourse := some "old" }

/-! ## Supporting lemmas -/

theorem List.find?_map_of_pred_eq {α : Type _} (f : α → α) (p : α → Bool)
    (hf : ∀ a, p (f a) = p a) (l : List α) :
    (l.map f).find? p = (l.find? p).map f := by
  induction l with
  | nil => rfl
  | cons a t ih =>
    simp only [List.map_cons, List.find?, hf a]
    cases hpa : p a
    · simpa using ih
    · rfl

theorem sidecarUpdate_dirName (n : String) (ac : Option String) (d : SemesterDir) :
    (sidecarUpdate n ac d).dirName = d.dirName := by
  unfold sidecarUpdate
  split <;> rfl

theorem dir?_writeSemesterSidecar (fs : FileSystem) (n : String) (ac : Option String)
    (m : String) :
    (fs.writeSemesterSidecar n ac).dir? m = (fs.dir? m).map (sidecarUpdate n ac) := by
  unfold FileSystem.writeSemesterSidecar FileSystem.dir?
  exact List.find?_map_of_pred_eq _ _ (fun d => by rw [sidecarUpdate_dirName]) _

theorem dir?_setCurrentSemester (st : Store) (o : Option Semester) (m : String) :
    (st.setCurrentSemester o).fs.dir? m = st.fs.dir? m := rfl

theorem dir?_some (fs : FileSystem) (n : String) (d : SemesterDir)
    (h : fs.dir? n = some d) : d.dirName = n ∧ d ∈ fs.children := by
  refine ⟨?_, List.mem_of_find?_eq_some h⟩
  have := List.find?_some h
  simpa using this

theorem courseDir?_some (d : SemesterDir) (n : String) (cd : CourseDir)
    (h : d.courseDir? n = some cd) : cd.dirName = n ∧ cd ∈ d.courses := by
  refine ⟨?_, List.mem_of_find?_eq_some h⟩
  have := List.find?_some h
  simpa using this

theorem courseFromPath_some (cd : CourseDir) (c : Course)
    (h : Course.fromPath cd = some c) :
    cd.sidecarOk = true ∧ c.dirName = cd.dirName ∧ c.nameOverride = cd.nameOverride := by
  unfold Course.fromPath at h
  split at h
  · cases h
    exact ⟨by assumption, rfl, rfl⟩
  · cases h

theorem semesterFromPath_some (d : SemesterDir) (sem : Semester)
    (h : Semester.fromPath d = some sem) :
    d.sidecarOk = true ∧ deserializeName d.dirName = some (sem.number, sem.cycle) ∧
      sem.pathName = d.dirName ∧
      sem.activeCourse = d.activeCourse.bind
        (fun cn => if (d.courseDir? cn).isSome then some cn else none) := by
  unfold Semester.fromPath at h
  match hso : d.sidecarOk with
  | false => rw [hso] at h; simp at h
  | true =>
    rw [hso] at h
    simp only [if_true] at h
    match hd : deserializeName d.dirName with
    | none => rw [hd] at h; simp at h
    | some nc =>
      rw [hd] at h
      simp only [Option.map_some', Option.some_inj] at h
      subst h
      exact ⟨rfl, rfl, rfl, rfl⟩

theorem Store.getSemester_some (st : Store) (n : String) (sem : Semester)
    (h : st.getSemester n = some sem) :
    defaultIsName n = true ∧ ∃ d, st.fs.dir? n = some d ∧ Semester.fromPath d = some sem := by
  unfold Store.getSemester at h
  split at h
  case isTrue hc =>
    rw [Bool.and_eq_true] at hc
    obtain ⟨hn, hs⟩ := hc
    obtain ⟨d, hd⟩ := Option.isSome_iff_exists.mp hs
    rw [hd] at h
    simp only [Option.some_bind] at h
    exact ⟨hn, d, hd, h⟩
  case isFalse => cases h

theorem Store.currentSemester_some (st : Store) (sem : Semester)
    (h : st.currentSemester = some sem) :
    ∃ n d, st.activeSemester = some n ∧ st.fs.dir? n = some d ∧
      Semester.fromPath d = some sem := by
  unfold Store.currentSemester at h
  match hn : st.activeSemester with
  | none => rw [hn] at h; cases h
  | some n =>
    rw [hn] at h
    simp only [Option.some_bind, Option.bind_eq_some] at h
    obtain ⟨d, hd, hf⟩ := h
    exact ⟨n, d, rfl, hd, hf⟩

theorem Semester.course_some (sem : Semester) (fs : FileSystem) (n : String) (c : Course)
    (h : sem.course fs n = some c) :
    ∃ d cd, fs.dir? sem.pathName = some d ∧ d.courseDir? n = some cd ∧
      Course.fromPath cd = some c := by
  unfold Semester.course at h
  simp only [Option.bind_eq_some] at h
  obtain ⟨d, hd, cd, hcd, hc⟩ := h
  exact ⟨d, cd, hd, hcd, hc⟩

theorem Semester.fromPath_not_ok (d : SemesterDir) (h : d.sidecarOk = false) :
    Semester.fromPath d = none := by
  unfold Semester.fromPath
  rw [h]
  simp

/-- After Store::set_current_semester(Some(S)), re-loading the active
semester yields S again, and the current course is S's own persisted
active course resolved against disk. -/
theorem currentCourse_setCurrentSemester (st : Store) (sem : Semester)
    (h : st.getSemester sem.pathName = some sem) :
    (st.setCurrentSemester (some sem)).currentSemester = some sem ∧
    (st.setCurrentSemester (some sem)).currentCourse = sem.activeCourseGet st.fs := by
  obtain ⟨hn, d, hd, hf⟩ := Store.getSemester_some st sem.pathName sem h
  have hcs : (st.setCurrentSemester (some sem)).currentSemester = some sem := by
    unfold Store.currentSemester Store.setCurrentSemester
    simp only [Option.map_some', Option.some_bind]
    have hdir : ({ st.fs with rootActiveSemester := some sem.pathName } :
        FileSystem).dir? sem.pathName = st.fs.dir? sem.pathName := rfl
    rw [hdir, hd]
    simpa using hf
  refine ⟨hcs, ?_⟩
  unfold Store.currentCourse
  rw [hcs]
  simp only [Option.some_bind]
  rfl

/-- After Store::set_current_course(sem, Some(c)) on a store whose active
semester re-loads as sem and where c is one of sem's courses on disk,
the current course re-loads as c, and the in-memory active-semester
pointer is untouched. -/
theorem currentCourse_setCurrentCourse (st : Store) (sem : Semester) (c : Course)
    (d : SemesterDir) (cd : CourseDir)
    (han : st.activeSemester = some sem.pathName)
    (hd : st.fs.dir? sem.pathName = some d)
    (hf : Semester.fromPath d = some sem)
    (hcd : d.courseDir? c.dirName = some cd)
    (hcfp : Course.fromPath cd = some c) :
    ((st.setCurrentCourse sem (some c)).1).currentCourse = some c ∧
    ((st.setCurrentCourse sem (some c)).1).activeSemester = st.activeSemester := by
  obtain ⟨hsok, hdes, hpn, hac⟩ := semesterFromPath_some d sem hf
  obtain ⟨hdn, _⟩ := dir?_some st.fs sem.pathName d hd
  refine ⟨?_, rfl⟩
  have hupd : sidecarUpdate sem.pathName (some c.dirName) d =
      { d with activeCourse := some c.dirName, sidecarOk := true } := by
    unfold sidecarUpdate
    rw [hdn]
    simp
  have hfp2 : Semester.fromPath { d with activeCourse := some c.dirName, sidecarOk := true } =
      some { number := sem.number, cycle := sem.cycle, pathName := d.dirName,
             activeCourse := some c.dirName } := by
    unfold Semester.fromPath
    have hdn2 : ({ d with activeCourse := some c.dirName, sidecarOk := true } :
        SemesterDir).dirName = d.dirName := rfl
    rw [hdn2, hdes]
    have hcd2 : ({ d with activeCourse := some c.dirName, sidecarOk := true } :
        SemesterDir).courseDir? c.dirName = some cd := hcd
    simp only [if_true, Option.map_some', Option.some_bind, hcd2, Option.isSome_some]
  have hfs : (st.setCurrentCourse sem (some c)).1.fs =
      st.fs.writeSemesterSidecar sem.pathName (some c.dirName) := rfl
  have hcd2 : ({ d with activeCourse := some c.dirName, sidecarOk := true } :
      SemesterDir).courseDir? c.dirName = some cd := hcd
  unfold Store.currentCourse Store.currentSemester
  have hactive : (st.setCurrentCourse sem (some c)).1.activeSemester = st.activeSemester := rfl
  rw [hactive, han]
  simp only [Option.some_bind]
  rw [hfs, dir?_writeSemesterSidecar, hd]
  simp only [Option.map_some', Option.some_bind]
  rw [hupd, hfp2]
  simp only [Option.some_bind, Semester.activeCourseGet]
  rw [hdn, dir?_writeSemesterSidecar, hd]
  simp only [Option.map_some', Option.some_bind]
  rw [hupd, hcd2]
  simp only [Option.some_bind]
  exact hcfp

/-! ## Claim theorems -/

/-- C3 counterexample: with semester m01 persisting active course c (whose
directory exists), a successful set_current_semester(Some(m01)) leaves
current_course() = Some(c), not None — the active course is not cleared
when the active semester changes. -/
theorem setCurrentSemester_course_counterexample :
    Store.getSemester c3Store "m01" = some c3SemM01 ∧
    (c3Store.setCurrentSemester (Store.getSemester c3Store "m01")).currentCourse =
      some { dirName := "c", nameOverride := none } := by
  constructor <;> rfl

/-- C3 (amended): changing the active semester to S does not clear S's own
persisted active-course pointer; immediately afterwards current_course()
returns S's persisted active course resolved against disk (None only when
that pointer is absent or stale). -/
theorem setCurrentSemester_keeps_target_course (st : Store) (sem : Semester)
    (h : st.getSemester sem.pathName = some sem) :
    (st.setCurrentSemester (some sem)).currentSemester = some sem ∧
    (st.setCurrentSemester (some sem)).currentCourse = sem.activeCourseGet st.fs :=
  currentCourse_setCurrentSemester st sem h

/-- C3 witness: the amended statement instantiated at store c3Store and
semester m01, whose persisted active course c resolves to course c. -/
theorem setCurrentSemester_keeps_target_course_witness :
    Store.getSemester c3Store "m01" = some c3SemM01 ∧
    (c3Store.setCurrentSemester (some c3SemM01)).currentCourse =
      c3SemM01.activeCourseGet c3Store.fs :=
  ⟨rfl, (setCurrentSemester_keeps_target_course c3Store c3SemM01 rfl).2⟩

/-- C5 counterexample: with the default policy, formatting number 123
yields b123, which parses back to (12, Bachelor), not (123, Bachelor) —
the round trip fails for numbers of three or more digits. -/
theorem parse_format_roundtrip_counterexample :
    deserializeName (formatName StudyCycle.bachelor 123) = some (12, StudyCycle.bachelor) ∧
    some (12, StudyCycle.bachelor) ≠ some (123, StudyCycle.bachelor) := by
  constructor
  · rfl
  · decide

/-- C5 (amended): for the default policy, parse is a left inverse of
format exactly on the two-digit-representable numbers: for every cycle and
every number up to 99, parsing the canonical name returns (number, cycle).
(For larger numbers the unanchored default pattern captures only the first
two digits, as the counterexample shows.) -/
theorem parse_format_roundtrip_le99 (cy : StudyCycle) (n : Nat) (h : n ≤ 99) :
    deserializeName (formatName cy n) = some (n, cy) := by
  revert n
  cases cy <;> decide

/-- C5 witness: the amended round trip at cycle Master and number 7. -/
theorem parse_format_roundtrip_le99_witness :
    deserializeName (formatName StudyCycle.master 7) = some (7, StudyCycle.master) :=
  parse_format_roundtrip_le99 StudyCycle.master 7 (by decide)

/-- C6: create_semester_path(1, Bachelor) creates a directory named
"Bachelor1" (Display form of the cycle plus the unpadded number), not the
canonical name "b01"; the created name does not satisfy the default naming
policy, so the store's own get_semester cannot retrieve the directory just
created. -/
theorem createSemesterPath_display_name_bug :
    createSemesterPath emptyFs 1 StudyCycle.bachelor =
      some ({ children := [{ dirName := "Bachelor1", courses := [], sidecarOk := true,
                             activeCourse := none }],
              rootSidecarOk := true, rootActiveSemester := none }, "Bachelor1") ∧
    formatName StudyCycle.bachelor 1 = "b01" ∧
    defaultIsName "Bachelor1" = false ∧
    Store.getSemester
      { fs := { children := [{ dirName := "Bachelor1", courses := [], sidecarOk := true,
                               activeCourse := none }],
                rootSidecarOk := true, rootActiveSemester := none }
        activeSemester := none } "Bachelor1" = none := by
  refine ⟨rfl, rfl, ?_, ?_⟩ <;> rfl

/-- C7: if the root sidecar is readable but its persisted active-semester
name no longer resolves (not policy-valid or no such directory), Store
loading still succeeds and the active semester is treated as absent. -/
theorem store_new_stale_pointer_recovered (fs : FileSystem) (name : String)
    (hok : fs.rootSidecarOk = true)
    (hp : fs.rootActiveSemester = some name)
    (hstale : (defaultIsName name && (fs.dir? name).isSome) = false) :
    Store.new fs = some { fs := fs, activeSemester := none } ∧
      ∀ st, Store.new fs = some st → st.currentSemester = none := by
  have h1 : Store.new fs = some { fs := fs, activeSemester := none } := by
    unfold Store.new
    rw [hok]
    simp only [if_true, hp, Option.some_bind, hstale]
    simp
  refine ⟨h1, ?_⟩
  intro st hst
  rw [h1] at hst
  cases hst
  rfl

/-- C7 witness: the failing pointer b07 over an empty entry point. -/
theorem store_new_stale_pointer_recovered_witness :
    Store.new c7Fs = some { fs := c7Fs, activeSemester := none } ∧
      ∀ st, Store.new c7Fs = some st → st.currentSemester = none :=
  store_new_stale_pointer_recovered c7Fs "b07" rfl rfl (by decide)

/-- C8: MaybeSymLinkable::new with a configured path fails whenever the
path is not an existing live symlink — in particular it fails when the
path is absent (and for a dangling symlink), where the claim (and the
error message's own wording) expect success; it succeeds on a live symlink
and with no configured path. -/
theorem maybeSymLinkable_absent_fails :
    maybeSymLinkableNew (some PathState.absent) = none ∧
    maybeSymLinkableNew (some PathState.danglingSymlink) = none ∧
    maybeSymLinkableNew (some PathState.liveSymlink) = some (some PathState.liveSymlink) ∧
    maybeSymLinkableNew (some PathState.nonSymlink) = none ∧
    maybeSymLinkableNew none = some none := by
  refine ⟨rfl, rfl, rfl, rfl, rfl⟩

/-- C9: moving the active course old to a fresh name preserves activeness:
the move succeeds, the in-memory active pointer is rewritten to the new
name as part of the operation, and the active course then resolves to the
renamed course. -/
theorem moveCourse_preserves_active (s : OldSemester) (old toName : String)
    (hact : s.activeCourse = some old)
    (hmem : s.courseDirs.contains old = true)
    (hnew : s.courseDirs.contains toName = false) :
    ∃ s', s.moveCourse old toName = some (s', toName) ∧
      s'.activeCourse = some toName ∧ s'.active = some toName := by
  have hIs : s.isActive old = true := by
    unfold OldSemester.isActive
    rw [hact]
    simp
  refine ⟨{ s with courseDirs := s.courseDirs.map (fun d => if d == old then toName else d), activeCourse := some toName }, ?_, rfl, ?_⟩
  · unfold OldSemester.moveCourse
    rw [hnew, hmem, hIs]
    simp
  · unfold OldSemester.active
    simp only [Option.some_bind]
    have hm : old ∈ s.courseDirs := List.mem_of_elem_eq_true hmem
    have hmt : toName ∈ s.courseDirs.map fun d => if d == old then toName else d :=
      List.mem_map.mpr ⟨old, hm, by simp⟩
    have hct : (s.courseDirs.map (fun d => if d == old then toName else d)).contains toName
        = true := List.elem_eq_true_of_mem hmt
    rw [hct]
    simp

/-- C9 witness: semester b01 with active course old; moving old to new. -/
theorem moveCourse_preserves_active_witness :
    c9Sem.activeCourse = some "old" ∧
    ∃ s', c9Sem.moveCourse "old" "new" = some (s', "new") ∧
      s'.activeCourse = some "new" ∧ s'.active = some "new" :=
  ⟨rfl, moveCourse_preserves_active c9Sem "old" "new" rfl (by decide) (by decide)⟩

/-- C10: a semester directory with a policy-valid name whose own sidecar
cannot be read or parsed is invisible to the read-only queries: it is
omitted from semesters() and get_semester on its name returns None. -/
theorem corrupt_sidecar_semester_invisible (st : Store) (d : SemesterDir)
    (hmem : d ∈ st.fs.children)
    (hname : defaultIsName d.dirName = true)
    (hbad : d.sidecarOk = false)
    (huniq : ∀ e ∈ st.fs.children, e.dirName = d.dirName → e = d) :
    st.getSemester d.dirName = none ∧ ∀ sem ∈ st.semesters, sem.pathName ≠ d.dirName := by
  constructor
  · unfold Store.getSemester
    match hfind : st.fs.dir? d.dirName with
    | none => simp
    | some e =>
      obtain ⟨hedn, hemem⟩ := dir?_some st.fs d.dirName e hfind
      have hed : e = d := huniq e hemem hedn
      subst hed
      simp [Option.some_bind, Semester.fromPath_not_ok e hbad]
  · intro sem hsem heq
    unfold Store.semesters at hsem
    obtain ⟨e, hef, hfp⟩ := List.mem_filterMap.mp hsem
    obtain ⟨hemem, _⟩ := List.mem_filter.mp hef
    obtain ⟨_, _, hpn, _⟩ := semesterFromPath_some e sem hfp
    have hedn : e.dirName = d.dirName := by rw [← hpn, heq]
    have hed : e = d := huniq e hemem hedn
    rw [hed, Semester.fromPath_not_ok d hbad] at hfp
    cases hfp

/-- C10 witness: semester directory b01 with an unparseable sidecar is
invisible to get_semester and semesters(). -/
theorem corrupt_sidecar_semester_invisible_witness :
    c10Store.getSemester "b01" = none ∧
      ∀ sem ∈ c10Store.semesters, sem.pathName ≠ "b01" := by
  have h := corrupt_sidecar_semester_invisible c10Store
    { dirName := "b01", courses := [], sidecarOk := false, activeCourse := none }
    (by decide) (by decide) rfl (by decide)
  exact h

/-- C2: a two-segment reference switches only if the semester lookup and
then the course lookup within it both succeed; on either miss the
operation fails and the store — in particular the in-memory and the
persisted active-semester pointer — is left unchanged; on success both
pointers are updated to the referenced semester. -/
theorem twoSegment_both_or_nothing (st : Store) (ref s c : String)
    (h : splitSlash ref = [s, c]) :
    (st.getSemester s = none →
      referenceSwitch st ref =
        (st, .failure "No semester found matching the reference semester part")) ∧
    (∀ sem, st.getSemester s = some sem → sem.course st.fs c = none →
      referenceSwitch st ref =
        (st, .failure "No Course found matching the reference course part")) ∧
    (∀ sem course, st.getSemester s = some sem → sem.course st.fs c = some course →
      (referenceSwitch st ref).2 = .courseSwitch sem.name course.name ∧
      (referenceSwitch st ref).1.activeSemester = some sem.pathName ∧
      (referenceSwitch st ref).1.fs.rootActiveSemester = some sem.pathName) := by
  refine ⟨?_, ?_, ?_⟩
  · intro hg
    simp only [referenceSwitch, h, hg]
  · intro sem hg hc
    simp only [referenceSwitch, h, hg, hc]
  · intro sem course hg hc
    simp only [referenceSwitch, h, hg, hc]
    refine ⟨trivial, rfl, rfl⟩

/-- C2 witness: reference b01/algebra over a store whose semester b01 has
no course algebra fails and leaves the store unchanged. -/
theorem twoSegment_both_or_nothing_witness :
    referenceSwitch c2Store "b01/algebra" =
      (c2Store, .failure "No Course found matching the reference course part") :=
  (twoSegment_both_or_nothing c2Store "b01/algebra" "b01" "algebra" rfl).2.1
    { number := 1, cycle := StudyCycle.bachelor, pathName := "b01", activeCourse := none }
    rfl rfl

/-- C1 counterexample: with b01 active (no course x) and m01 containing
course directory x without a name override, resolving "x" does not
activate m01/x: the fallthrough matches courses by display name, which is
"[x]" here, so the switch fails with the not-found error and the store is
unchanged. -/
theorem referenceSwitch_fallthrough_counterexample :
    (referenceSwitch c1Store "x").2 = SwitchOutcome.failure "No course found by reference" ∧
    (referenceSwitch c1Store "x").1 = c1Store := by
  constructor <;> rfl

/-- C1 (amended): one-segment resolution tries, first match winning:
(1) a semester of that name is activated; (2) otherwise a course directory
of that name in the active semester becomes the active course; (3)
otherwise the first course whose display name (sidecar override, else
bracketed directory name) equals the reference is matched, and the first
semester containing a course directory named by that display name is
activated with its sidecar pointed at the matched course's directory name;
a display-name match without such a semester, or no match at all, fails
with a not-found error and no state change. -/
theorem referenceSwitch_one_segment_priority (st : Store) (ref r : String)
    (h : splitSlash ref = [r]) :
    (∀ sem, st.getSemester r = some sem →
      (referenceSwitch st ref).2 = .semesterSwitch sem.name ∧
      (referenceSwitch st ref).1.activeSemester = some sem.pathName ∧
      (referenceSwitch st ref).1.fs.rootActiveSemester = some sem.pathName) ∧
    (∀ act c, st.getSemester r = none → st.currentSemester = some act →
      act.course st.fs r = some c →
      (referenceSwitch st ref).2 = .courseSwitch act.name c.name ∧
      (referenceSwitch st ref).1.activeSemester = st.activeSemester ∧
      (referenceSwitch st ref).1.currentCourse = some c) ∧
    (∀ c sem, st.getSemester r = none →
      (st.currentSemester.bind fun act => (act.course st.fs r).map fun c' => (act, c')) = none →
      st.courses.find? (fun c' => c'.name == r) = some c →
      st.semesters.find? (fun s' => (s'.course st.fs c.name).isSome) = some sem →
      (referenceSwitch st ref).2 = .courseSwitch sem.name c.name ∧
      (referenceSwitch st ref).1.activeSemester = some sem.pathName ∧
      (referenceSwitch st ref).1.fs.rootActiveSemester = some sem.pathName ∧
      (referenceSwitch st ref).1.fs.dir? sem.pathName =
        (st.fs.dir? sem.pathName).map (sidecarUpdate sem.pathName (some c.dirName))) ∧
    (∀ c, st.getSemester r = none →
      (st.currentSemester.bind fun act => (act.course st.fs r).map fun c' => (act, c')) = none →
      st.courses.find? (fun c' => c'.name == r) = some c →
      st.semesters.find? (fun s' => (s'.course st.fs c.name).isSome) = none →
      referenceSwitch st ref = (st, .failure "No semester found for course")) ∧
    (st.getSemester r = none →
      (st.currentSemester.bind fun act => (act.course st.fs r).map fun c' => (act, c')) = none →
      st.courses.find? (fun c' => c'.name == r) = none →
      referenceSwitch st ref = (st, .failure "No course found by reference")) := by
  refine ⟨?_, ?_, ?_, ?_, ?_⟩
  · intro sem hg
    simp only [referenceSwitch, h, hg]
    refine ⟨trivial, rfl, rfl⟩
  · intro act c hg hact hc
    have hsc : (st.currentSemester.bind fun a => (a.course st.fs r).map fun c' => (a, c')) =
        some (act, c) := by
      rw [hact]
      simp only [Option.some_bind, hc, Option.map_some']
    obtain ⟨n, d, han, hd, hf⟩ := Store.currentSemester_some st act hact
    obtain ⟨_, _, hpn, _⟩ := semesterFromPath_some d act hf
    obtain ⟨hdn, _⟩ := dir?_some st.fs n d hd
    have hpn' : act.pathName = n := by rw [hpn, hdn]
    obtain ⟨d', cd, hd', hcd, hcfp⟩ := Semester.course_some act st.fs r c hc
    rw [hpn', hd] at hd'
    injection hd' with hdd
    obtain ⟨hcdn, _⟩ := courseDir?_some d' r cd hcd
    obtain ⟨_, hcn, _⟩ := courseFromPath_some cd c hcfp
    have hcr : c.dirName = r := by rw [hcn, hcdn]
    have key := currentCourse_setCurrentCourse st act c d cd
      (by rw [hpn']; exact han) (by rw [hpn']; exact hd) hf
      (by rw [hcr, hdd]; exact hcd) hcfp
    simp only [referenceSwitch, h, hg, hsc]
    exact ⟨trivial, key.2, key.1⟩
  · intro c sem hg hsc hfind hsem
    simp only [referenceSwitch, h, hg, hsc, referenceSwitchFallthrough, hfind, hsem]
    refine ⟨trivial, rfl, rfl, ?_⟩
    have hfs : ((st.setCurrentSemester (some sem)).setCurrentCourse sem (some c)).1.fs =
        ((st.setCurrentSemester (some sem)).fs).writeSemesterSidecar sem.pathName
          (some c.dirName) := rfl
    rw [hfs, dir?_writeSemesterSidecar]
    rfl
  · intro c hg hsc hfind hsem
    simp only [referenceSwitch, h, hg, hsc, referenceSwitchFallthrough, hfind, hsem]
  · intro hg hsc hfind
    simp only [referenceSwitch, h, hg, hsc, referenceSwitchFallthrough, hfind]

/-- C1 witness: with the override name "x" on course directory x in m01
and b01 active, resolving "x" falls through and activates m01 and x. -/
theorem referenceSwitch_one_segment_priority_witness :
    (referenceSwitch c1wStore "x").2 = SwitchOutcome.courseSwitch "m01" "x" ∧
    (referenceSwitch c1wStore "x").1.activeSemester = some "m01" ∧
    (referenceSwitch c1wStore "x").1.fs.rootActiveSemester = some "m01" := by
  have h3 := (referenceSwitch_one_segment_priority c1wStore "x" "x" rfl).2.2.1
  have key := h3 { dirName := "x", nameOverride := some "x" }
    { number := 1, cycle := StudyCycle.master, pathName := "m01", activeCourse := none }
    rfl rfl rfl rfl
  exact ⟨key.1, key.2.1, key.2.2.1⟩

/-- C4 counterexample: entry point with semester m01 whose sidecar
persists active course c; a context switch from the immediate child m01
activates m01 but current_course() is Some(c), not None — the claim's
"with no active course" fails. -/
theorem contextSwitch_counterexample :
    (contextSwitch c4Store (WorkDir.below ["m01"])).2 = CtxOutcome.semesterOnly "m01" ∧
    (contextSwitch c4Store (WorkDir.below ["m01"])).1.currentCourse =
      some { dirName := "c", nameOverride := none } := by
  constructor <;> rfl

/-- C4 (amended): context switching maps the canonicalized working
directory as follows: at the entry point the active semester (and
transitively the course) is cleared; an immediate child that loads as a
policy-valid semester is activated, after which the current course is that
semester's own persisted active course (not necessarily None); two levels
below, the distance-1 ancestor is activated as the semester and the
working directory as the course within it; outside the entry point the
operation reports out-of-scope and changes nothing. -/
theorem contextSwitch_mapping (st : Store) :
    (contextSwitch st .atEntry = (st.setCurrentSemester none, .cleared) ∧
      (contextSwitch st .atEntry).1.currentSemester = none ∧
      (contextSwitch st .atEntry).1.currentCourse = none) ∧
    (∀ n sem, st.getSemester n = some sem →
      (contextSwitch st (.below [n])).2 = .semesterOnly sem.name ∧
      (contextSwitch st (.below [n])).1.activeSemester = some sem.pathName ∧
      (contextSwitch st (.below [n])).1.currentCourse = sem.activeCourseGet st.fs) ∧
    (∀ s₀ s₁ sem c, st.getSemester s₀ = some sem → sem.course st.fs s₁ = some c →
      (contextSwitch st (.below [s₀, s₁])).2 = .semesterAndCourse sem.name c.name ∧
      (contextSwitch st (.below [s₀, s₁])).1.activeSemester = some sem.pathName ∧
      (contextSwitch st (.below [s₀, s₁])).1.currentCourse = some c) ∧
    (contextSwitch st .outside = (st, .outOfScope)) := by
  refine ⟨⟨rfl, rfl, rfl⟩, ?_, ?_, rfl⟩
  · intro n sem hg
    obtain ⟨_, d, hd, hf⟩ := Store.getSemester_some st n sem hg
    obtain ⟨_, _, hpn, _⟩ := semesterFromPath_some d sem hf
    obtain ⟨hdn, _⟩ := dir?_some st.fs n d hd
    have hpn' : sem.pathName = n := by rw [hpn, hdn]
    have hg' : st.getSemester sem.pathName = some sem := by rw [hpn']; exact hg
    have key := currentCourse_setCurrentSemester st sem hg'
    simp only [contextSwitch, hg]
    exact ⟨trivial, rfl, key.2⟩
  · intro s₀ s₁ sem c hg hc
    obtain ⟨_, d, hd, hf⟩ := Store.getSemester_some st s₀ sem hg
    obtain ⟨_, _, hpn, _⟩ := semesterFromPath_some d sem hf
    obtain ⟨hdn, _⟩ := dir?_some st.fs s₀ d hd
    have hpn' : sem.pathName = s₀ := by rw [hpn, hdn]
    have hc1 : sem.course (st.setCurrentSemester (some sem)).fs s₁ = some c := hc
    obtain ⟨d', cd, hd', hcd, hcfp⟩ := Semester.course_some sem st.fs s₁ c hc
    rw [hpn', hd] at hd'
    injection hd' with hdd
    obtain ⟨hcdn, _⟩ := courseDir?_some d' s₁ cd hcd
    obtain ⟨_, hcn, _⟩ := courseFromPath_some cd c hcfp
    have hcr : c.dirName = s₁ := by rw [hcn, hcdn]
    have key := currentCourse_setCurrentCourse (st.setCurrentSemester (some sem)) sem c d cd
      rfl (by rw [dir?_setCurrentSemester, hpn']; exact hd) hf
      (by rw [hcr, hdd]; exact hcd) hcfp
    simp only [contextSwitch, hg, hc1]
    exact ⟨trivial, rfl, key.1⟩

/-- C4 witness: from /studies/b01/algebra the semester b01 and course
algebra are activated; the other mapping cases instantiate at the same
store. -/
theorem contextSwitch_mapping_witness :
    (contextSwitch c4Store (WorkDir.below ["b01", "algebra"])).2 =
      CtxOutcome.semesterAndCourse "b01" "[algebra]" ∧
    (contextSwitch c4Store (WorkDir.below ["b01", "algebra"])).1.activeSemester = some "b01" ∧
    (contextSwitch c4Store (WorkDir.below ["b01", "algebra"])).1.currentCourse =
      some { dirName := "algebra", nameOverride := none } ∧
    contextSwitch c4Store WorkDir.outside = (c4Store, CtxOutcome.outOfScope) := by
  have hm := contextSwitch_mapping c4Store
  have key := hm.2.2.1 "b01" "algebra"
    { number := 1, cycle := StudyCycle.bachelor, pathName := "b01", activeCourse := none }
    { dirName := "algebra", nameOverride := none } rfl rfl
  exact ⟨key.1, key.2.1, key.2.2, hm.2.2.2⟩

end MM
